import Mathlib

/-!
# Verification of the Hydro-AI resilient data access layer

Shallow embedding of the client-side API access layer of the Hydro-AI
dashboard.  The repository ships two near-identical revisions of the layer:

* variant A: the `api` object of `src/unnamed/part_002` (the file that also
  holds `services/geminiService.ts`);
* variant B: the `api` object of `src/unnamed/part_003` (the file that also
  holds `types.ts`).

JavaScript numbers are modelled by `JsNum`: an exact rational carrier
together with the three IEEE special values `nan`, `inf` and `ninf`
(negative zero is not modelled; none of the code paths studied here
distinguishes it).  `Number.prototype.toFixed` is modelled exactly by
`toFixedQ` (round half toward positive infinity at `d` decimal digits,
per ECMA-262).  `Math.pow`, `JSON.parse`, `Math.random` and `Date`
are ambient effects of the JavaScript environment; they are supplied
through an explicit `Env` record.  Remote HTTP interactions are supplied
as `Remote` outcome parameters: either a typed success payload or one of
the four failure modes of the spec's error taxonomy; a rejected promise
inside a `try` block corresponds to matching on `Remote.fail`.
-/

/-- The spec's failure taxonomy for a remote call. -/
inductive FailureMode where
  | timeout : FailureMode
  | network : FailureMode
  | badStatus : FailureMode
  | malformed : FailureMode
deriving DecidableEq, Repr

/-- Outcome of one remote HTTP interaction: a typed success payload, or a
rejection carrying one of the four failure modes. -/
inductive Remote (α : Type) where
  | ok : α → Remote α
  | fail : FailureMode → Remote α
deriving DecidableEq, Repr

/-- A JavaScript number: an exact rational, or one of the IEEE special
values `NaN`, `Infinity`, `-Infinity`. -/
inductive JsNum where
  | num : ℚ → JsNum
  | nan : JsNum
  | inf : JsNum
  | ninf : JsNum
deriving DecidableEq, Repr

namespace JsNum

/-- JavaScript addition on `JsNum`. -/
def jadd : JsNum → JsNum → JsNum
  | num a, num b => num (a + b)
  | nan, _ => nan
  | _, nan => nan
  | inf, ninf => nan
  | ninf, inf => nan
  | inf, _ => inf
  | _, inf => inf
  | ninf, _ => ninf
  | _, ninf => ninf

/-- JavaScript multiplication on `JsNum`. -/
def jmul : JsNum → JsNum → JsNum
  | num a, num b => num (a * b)
  | nan, _ => nan
  | _, nan => nan
  | inf, num b => if b = 0 then nan else if 0 < b then inf else ninf
  | num a, inf => if a = 0 then nan else if 0 < a then inf else ninf
  | ninf, num b => if b = 0 then nan else if 0 < b then ninf else inf
  | num a, ninf => if a = 0 then nan else if 0 < a then ninf else inf
  | inf, inf => inf
  | inf, ninf => ninf
  | ninf, inf => ninf
  | ninf, ninf => inf

/-- JavaScript division on `JsNum` (signed zero is not modelled, so a
finite value divided by zero is sent to the infinity matching the sign of
the dividend, and `0 / 0` is `NaN`). -/
def jdiv : JsNum → JsNum → JsNum
  | num a, num b =>
      if b = 0 then (if a = 0 then nan else if 0 < a then inf else ninf)
      else num (a / b)
  | nan, _ => nan
  | _, nan => nan
  | num _, inf => num 0
  | num _, ninf => num 0
  | inf, num b => if 0 ≤ b then inf else ninf
  | ninf, num b => if 0 ≤ b then ninf else inf
  | inf, _ => nan
  | ninf, _ => nan

end JsNum

/-- `q` rounded at `d` decimal digits, half toward positive infinity: the
exact-rational content of ECMA-262 `Number.prototype.toFixed(d)` followed
by `Number(·)`. -/
def toFixedQ (d : ℕ) (q : ℚ) : ℚ :=
  ((⌊q * 10 ^ d + 1 / 2⌋ : ℤ) : ℚ) / 10 ^ d

/-- `x.toFixed(d)` then `Number(·)` on a `JsNum`: rounds a finite value and
is the identity on the special values (`"NaN"`, `"Infinity"` and
`"-Infinity"` parse back to themselves). -/
def jToFixed (d : ℕ) : JsNum → JsNum
  | JsNum.num q => JsNum.num (toFixedQ d q)
  | x => x

/-- The six-field report shape of `AIAnalysisResult` in `types.ts`
(enumeration fields carried as strings, as produced by `JSON.parse`). -/
structure AnalysisReport where
  riskLevel : String
  summary : String
  recommendation : String
  floodProbability : ℚ
  droughtSeverity : String
  forecast : String
deriving DecidableEq, Repr

/-- `accuracy: number | string` of `ModelMetric` in `types.ts`. -/
inductive NumOrStr where
  | num : ℚ → NumOrStr
  | str : String → NumOrStr
deriving DecidableEq, Repr

/-- `ModelMetric` of `types.ts`. -/
structure ModelMetric where
  accuracy : NumOrStr
  type : String
  status : String
  last_updated : Option String
deriving DecidableEq, Repr

/-- `MLMetricsResponse` of `types.ts`: a mapping from model name to
`ModelMetric` (modelled as an association list). -/
def MLMetricsResponse := List (String × ModelMetric)
deriving DecidableEq, Repr

/-- The `data` record of `BackendSatelliteResponse`. -/
structure SatelliteData where
  surface_area_sqkm : JsNum
  volume_mcm : JsNum
  water_level_m : JsNum
  fill_percentage : JsNum
  cloud_cover_pct : JsNum
  rainfall_mm : JsNum
  satellite_pass : String
deriving DecidableEq, Repr

/-- `BackendSatelliteResponse` of both api variants. -/
structure BackendSatelliteResponse where
  source : String
  data : SatelliteData
deriving DecidableEq, Repr

/-- The `AnomalyVerdict` record returned by `checkAnomaly` (field names as
in the source object literal). -/
structure AnomalyVerdict where
  is_anomaly : Bool
  anomaly_score : ℚ
  deviation_percent : ℚ
deriving DecidableEq, Repr

/-- Ambient JavaScript environment of one call: the two `Math.random()`
draws made by `simulateGEE`, the current time as an ISO string
(`new Date().toISOString()`), the `Math.pow` function, and `JSON.parse`
specialised to the report shape (returning `none` when parsing throws). -/
structure Env where
  rand1 : ℚ
  rand2 : ℚ
  now : String
  pow : JsNum → JsNum → JsNum
  parse : String → Option AnalysisReport

/-- The per-season base fill-fraction lookup table of `simulateGEE`
(`baseFillMap`). -/
def baseFillMap : String → Option ℚ
  | "Monsoon" => some (17 / 20)
  | "Post-Monsoon" => some (3 / 4)
  | "Winter" => some (3 / 5)
  | "Summer" => some (7 / 20)
  | _ => none

/-- The fill fraction computed inside `simulateGEE`:
`Math.max(0.1, Math.min(0.98, baseFill + noise))` with
`noise = Math.random() * 0.1 - 0.05`.  (`baseFillMap[season] || 0.5`: all
stored table values are nonzero, hence truthy, so `||` only replaces a
missing entry.) -/
def fillPctSim (env : Env) (season : String) : ℚ :=
  let baseFill := (baseFillMap season).getD (1 / 2)
  let noise := env.rand1 * (1 / 10) - 1 / 20
  max (1 / 10) (min (49 / 50) (baseFill + noise))

/-- `simulateGEE` — the client-side satellite fallback, identical in both
api variants (part_002 lines 111–134, part_003 lines 20–44). -/
def simulateGEE (env : Env) (season : String) (maxCapacity : JsNum) : SatelliteData :=
  let fillPct := fillPctSim env season
  let volume := JsNum.jmul maxCapacity (JsNum.num fillPct)
  let surfaceArea := JsNum.jmul (env.pow volume (JsNum.num (33 / 50))) (JsNum.num (6 / 5))
  let waterLevel :=
    JsNum.jadd (JsNum.num 10) (JsNum.jmul (JsNum.jdiv volume maxCapacity) (JsNum.num 20))
  { surface_area_sqkm := jToFixed 2 surfaceArea
    volume_mcm := jToFixed 1 volume
    water_level_m := jToFixed 1 waterLevel
    fill_percentage := JsNum.num (toFixedQ 1 (fillPct * 100))
    cloud_cover_pct := JsNum.num (toFixedQ 1 (env.rand2 * 30))
    rainfall_mm := JsNum.num (if season = "Monsoon" then 800 else 100)
    satellite_pass := env.now }

namespace VariantA

/-!  Variant A: the `api` object of part_002 (lines 136–284).  Parameters
that only feed the remote request body (`reservoirId`, `lat`, `lng`, the
report payload, the feedback record) are elided or kept opaque: the remote
interaction itself is supplied as a `Remote` outcome. -/

/-- `api.getSatelliteData` (part_002 lines 140–164). -/
def getSatelliteData (env : Env) (remote : Remote BackendSatelliteResponse)
    (season : String) (maxCapacity : JsNum) : BackendSatelliteResponse :=
  match remote with
  | Remote.ok r => r
  | Remote.fail _ =>
      { source := "Client-Side Simulation (Offline)"
        data := simulateGEE env season maxCapacity }

/-- `api.getForecast` (part_002 lines 166–177): simple moving-average
fallback, no trend adjustment. -/
def getForecast (_env : Env) (remote : Remote ℚ) (historicalVolumes : List ℚ) : ℚ :=
  match remote with
  | Remote.ok v => v
  | Remote.fail _ =>
      if historicalVolumes.length = 0 then 0
      else
        let recent := historicalVolumes.drop (historicalVolumes.length - 3)
        let avg := recent.sum / (recent.length : ℚ)
        toFixedQ 1 avg

/-- `api.checkAnomaly` (part_002 lines 179–197).  The JavaScript guard
`historicalAvg * 0.15 || 1` substitutes `1` exactly when the product is
falsy, i.e. zero; it is modelled by a zero test. -/
def checkAnomaly (_env : Env) (remote : Remote AnomalyVerdict)
    (currentVol historicalAvg : ℚ) : AnomalyVerdict :=
  match remote with
  | Remote.ok r => r
  | Remote.fail _ =>
      let deviation := |currentVol - historicalAvg|
      let stdDev := if historicalAvg * (3 / 20) = 0 then 1 else historicalAvg * (3 / 20)
      let score := deviation / stdDev
      { is_anomaly := decide (score > 5 / 2)
        anomaly_score := toFixedQ 2 score
        deviation_percent :=
          toFixedQ 1 (deviation / (if historicalAvg = 0 then 1 else historicalAvg) * 100) }

/-- The tier-3 hardcoded static report of part_002 `generateReport`. -/
def staticReport : AnalysisReport :=
  { riskLevel := "Moderate"
    summary := "AI Analysis temporarily unavailable (Backend & API unreachable)."
    recommendation := "Use manual calculations and monitor water levels closely."
    floodProbability := 0
    droughtSeverity := "Normal"
    forecast := "Data unavailable." }

/-- `api.generateReport` (part_002 lines 199–263): backend tier, then a
direct Gemini call (its `result.text`, possibly absent or empty, supplied
as `Remote (Option String)`), then the static tier.  `if (!text) throw`
fires on a missing and on an empty string; the markdown cleaning is the
two global `replace`s followed by `trim`; a `JSON.parse` throw is
`env.parse _ = none`. -/
def generateReport (env : Env) (backend : Remote AnalysisReport)
    (gemini : Remote (Option String)) : AnalysisReport :=
  match backend with
  | Remote.ok r => r
  | Remote.fail _ =>
      match gemini with
      | Remote.fail _ => staticReport
      | Remote.ok none => staticReport
      | Remote.ok (some text) =>
          if text = "" then staticReport
          else
            let jsonStr := ((text.replace "```json" "").replace "```" "").trim
            match env.parse jsonStr with
            | some r => r
            | none => staticReport

/-- `api.sendFeedback` (part_002 lines 265–271): the axios response is kept
opaque; on failure the catch swallows the error and the function returns
`undefined` (`none`). -/
def sendFeedback (_env : Env) (remote : Remote String) : Option String :=
  match remote with
  | Remote.ok r => some r
  | Remote.fail _ => none

/-- `api.getMLMetrics` (part_002 lines 273–283). -/
def getMLMetrics (_env : Env) (remote : Remote MLMetricsResponse) : MLMetricsResponse :=
  match remote with
  | Remote.ok r => r
  | Remote.fail _ =>
      [("Random Forest Regressor",
        { accuracy := NumOrStr.str "Offline", type := "Regression",
          status := "Offline", last_updated := none }),
       ("Isolation Forest",
        { accuracy := NumOrStr.str "Offline", type := "Anomaly Detection",
          status := "Offline", last_updated := none })]

end VariantA

namespace VariantB

/-!  Variant B: the `api` object of part_003 (lines 46–172). -/

/-- `api.getSatelliteData` (part_003 lines 47–73). -/
def getSatelliteData (env : Env) (remote : Remote BackendSatelliteResponse)
    (season : String) (maxCapacity : JsNum) : BackendSatelliteResponse :=
  match remote with
  | Remote.ok r => r
  | Remote.fail _ =>
      { source := "Simulated Physics Engine (Active)"
        data := simulateGEE env season maxCapacity }

/-- `api.getForecast` (part_003 lines 75–89): moving-average fallback with
the ×1.02 trend adjustment. -/
def getForecast (_env : Env) (remote : Remote ℚ) (historicalVolumes : List ℚ) : ℚ :=
  match remote with
  | Remote.ok v => v
  | Remote.fail _ =>
      if historicalVolumes.length = 0 then 0
      else
        let recent := historicalVolumes.drop (historicalVolumes.length - 3)
        let avg := recent.sum / (recent.length : ℚ)
        toFixedQ 1 (avg * (51 / 50))

/-- `api.checkAnomaly` (part_003 lines 91–114); textually identical to the
variant A fallback. -/
def checkAnomaly (_env : Env) (remote : Remote AnomalyVerdict)
    (currentVol historicalAvg : ℚ) : AnomalyVerdict :=
  match remote with
  | Remote.ok r => r
  | Remote.fail _ =>
      let deviation := |currentVol - historicalAvg|
      let stdDev := if historicalAvg * (3 / 20) = 0 then 1 else historicalAvg * (3 / 20)
      let score := deviation / stdDev
      { is_anomaly := decide (score > 5 / 2)
        anomaly_score := toFixedQ 2 score
        deviation_percent :=
          toFixedQ 1 (deviation / (if historicalAvg = 0 then 1 else historicalAvg) * 100) }

/-- The static fallback of part_003 `generateReport`. -/
def staticReport : AnalysisReport :=
  { riskLevel := "Moderate"
    summary := "Integrated Analysis (Simulated): Water levels are within expected seasonal variance."
    recommendation := "Continue standard monitoring protocols."
    floodProbability := 12
    droughtSeverity := "Normal"
    forecast := "Stable conditions expected for next 14 days." }

/-- `api.generateReport` (part_003 lines 116–137): backend tier, then the
static fallback — this variant has no generative tier. -/
def generateReport (_env : Env) (backend : Remote AnalysisReport) : AnalysisReport :=
  match backend with
  | Remote.ok r => r
  | Remote.fail _ => staticReport

/-- `api.sendFeedback` (part_003 lines 139–147). -/
def sendFeedback (_env : Env) (remote : Remote String) : Option String :=
  match remote with
  | Remote.ok r => some r
  | Remote.fail _ => none

/-- `api.getMLMetrics` (part_003 lines 149–171): the fallback reports the
models as `Active` with fixed numeric accuracies and
`new Date().toISOString()` as `last_updated`. -/
def getMLMetrics (env : Env) (remote : Remote MLMetricsResponse) : MLMetricsResponse :=
  match remote with
  | Remote.ok r => r
  | Remote.fail _ =>
      [("Random Forest Regressor",
        { accuracy := NumOrStr.num (197 / 200), type := "Regression",
          status := "Active", last_updated := some env.now }),
       ("Isolation Forest",
        { accuracy := NumOrStr.num (471 / 500), type := "Anomaly Detection",
          status := "Active", last_updated := some env.now })]

end VariantB

/-- A fixed concrete environment used to state closed evaluations:
both random draws 0, epoch timestamp, a `Math.pow` oracle that is not
consulted by the statements using this environment, and a `JSON.parse`
that always throws. -/
def envDefault : Env :=
  { rand1 := 0, rand2 := 0, now := "1970-01-01T00:00:00.000Z",
    pow := fun _ _ => JsNum.nan, parse := fun _ => none }

section RoundingLemmas

lemma toFixedQ_le (d : ℕ) (x : ℚ) : toFixedQ d x ≤ x + 1 / (2 * 10 ^ d) := by
  have h10 : (0 : ℚ) < 10 ^ d := by positivity
  rw [toFixedQ, div_le_iff₀ h10]
  calc ((⌊x * 10 ^ d + 1 / 2⌋ : ℤ) : ℚ) ≤ x * 10 ^ d + 1 / 2 := Int.floor_le _
    _ = (x + 1 / (2 * 10 ^ d)) * 10 ^ d := by field_simp; ring

lemma le_toFixedQ (d : ℕ) (x : ℚ) : x - 1 / (2 * 10 ^ d) ≤ toFixedQ d x := by
  have h10 : (0 : ℚ) < 10 ^ d := by positivity
  rw [toFixedQ, le_div_iff₀ h10]
  have hfl : x * 10 ^ d + 1 / 2 - 1 < ((⌊x * 10 ^ d + 1 / 2⌋ : ℤ) : ℚ) :=
    Int.sub_one_lt_floor _
  have heq : (x - 1 / (2 * 10 ^ d)) * 10 ^ d = x * 10 ^ d + 1 / 2 - 1 + 0 := by
    field_simp; ring
  calc (x - 1 / (2 * 10 ^ d)) * 10 ^ d = x * 10 ^ d + 1 / 2 - 1 + 0 := heq
    _ ≤ ((⌊x * 10 ^ d + 1 / 2⌋ : ℤ) : ℚ) := by linarith

lemma abs_toFixedQ_sub (d : ℕ) (x : ℚ) : |toFixedQ d x - x| ≤ 1 / (2 * 10 ^ d) := by
  have h1 := toFixedQ_le d x
  have h2 := le_toFixedQ d x
  rw [abs_le]
  constructor <;> linarith

lemma toFixedQ_mono (d : ℕ) {x y : ℚ} (h : x ≤ y) : toFixedQ d x ≤ toFixedQ d y := by
  have h10 : (0 : ℚ) < 10 ^ d := by positivity
  rw [toFixedQ, toFixedQ, div_le_div_iff_of_pos_right h10]
  exact_mod_cast Int.floor_mono (by nlinarith)

lemma toFixedQ_zero (d : ℕ) : toFixedQ d 0 = 0 := by
  rw [toFixedQ]
  norm_num

lemma toFixedQ_nonneg (d : ℕ) {x : ℚ} (h : 0 ≤ x) : 0 ≤ toFixedQ d x := by
  have := toFixedQ_mono d h
  rwa [toFixedQ_zero] at this

lemma toFixedQ_nonpos (d : ℕ) {x : ℚ} (h : x ≤ 0) : toFixedQ d x ≤ 0 := by
  have := toFixedQ_mono d h
  rwa [toFixedQ_zero] at this

end RoundingLemmas

section FillLemmas

lemma fillPctSim_lb (env : Env) (season : String) : 1 / 10 ≤ fillPctSim env season :=
  le_max_left _ _

lemma fillPctSim_ub (env : Env) (season : String) : fillPctSim env season ≤ 49 / 50 :=
  max_le (by norm_num) (min_le_left _ _)

/-- The clamp inside `simulateGEE` is 1-Lipschitz in the noise, so two fill
fractions for the same season differ by at most a tenth of the difference
of the underlying `Math.random()` draws. -/
lemma fillPctSim_dist (env env' : Env) (season : String) :
    |fillPctSim env season - fillPctSim env' season| ≤ |env.rand1 - env'.rand1| / 10 := by
  unfold fillPctSim
  set c := (baseFillMap season).getD (1 / 2) with hc
  have h1 : |max (1 / 10) (min (49 / 50) (c + (env.rand1 * (1 / 10) - 1 / 20))) -
      max (1 / 10) (min (49 / 50) (c + (env'.rand1 * (1 / 10) - 1 / 20)))| ≤
      |min (49 / 50) (c + (env.rand1 * (1 / 10) - 1 / 20)) -
        min (49 / 50) (c + (env'.rand1 * (1 / 10) - 1 / 20))| := by
    rw [max_comm (1 / 10), max_comm (1 / 10)]
    exact abs_max_sub_max_le_abs _ _ _
  have h2 : |min (49 / 50) (c + (env.rand1 * (1 / 10) - 1 / 20)) -
      min (49 / 50) (c + (env'.rand1 * (1 / 10) - 1 / 20))| ≤
      |c + (env.rand1 * (1 / 10) - 1 / 20) - (c + (env'.rand1 * (1 / 10) - 1 / 20))| := by
    have := abs_min_sub_min_le_max (49 / 50 : ℚ) (c + (env.rand1 * (1 / 10) - 1 / 20))
      (49 / 50) (c + (env'.rand1 * (1 / 10) - 1 / 20))
    simpa using this
  have h3 : |c + (env.rand1 * (1 / 10) - 1 / 20) - (c + (env'.rand1 * (1 / 10) - 1 / 20))| =
      |env.rand1 - env'.rand1| / 10 := by
    rw [show c + (env.rand1 * (1 / 10) - 1 / 20) - (c + (env'.rand1 * (1 / 10) - 1 / 20)) =
      (env.rand1 - env'.rand1) / 10 by ring, abs_div]
    norm_num
  calc |max (1 / 10) (min (49 / 50) (c + (env.rand1 * (1 / 10) - 1 / 20))) -
      max (1 / 10) (min (49 / 50) (c + (env'.rand1 * (1 / 10) - 1 / 20)))| ≤
      |min (49 / 50) (c + (env.rand1 * (1 / 10) - 1 / 20)) -
        min (49 / 50) (c + (env'.rand1 * (1 / 10) - 1 / 20))| := h1
    _ ≤ |c + (env.rand1 * (1 / 10) - 1 / 20) - (c + (env'.rand1 * (1 / 10) - 1 / 20))| := h2
    _ = |env.rand1 - env'.rand1| / 10 := h3

end FillLemmas

/-- The checkAnomaly fallback as the claim words it: the
standard-deviation proxy floored at 1 by `max`. -/
def checkAnomalyClaimFormula (currentVol historicalAvg : ℚ) : AnomalyVerdict :=
  let deviation := |currentVol - historicalAvg|
  let stdDevProxy := max (historicalAvg * (3 / 20)) 1
  let score := deviation / stdDevProxy
  { is_anomaly := decide (score > 5 / 2)
    anomaly_score := toFixedQ 2 score
    deviation_percent :=
      toFixedQ 1 (deviation / (if historicalAvg = 0 then 1 else historicalAvg) * 100) }

/-- C3, counterexample.  At `currentVolume = 4`, `historicalAverage = 2`
the claim's proxy `max(2 × 0.15, 1) = 1` would give score `2` and no
anomaly, but the code's guard `historicalAvg * 0.15 || 1` keeps the proxy
at `0.3`, giving score `6.67` and an anomaly. -/
theorem c3_counterexample :
    (VariantA.checkAnomaly envDefault (Remote.fail FailureMode.timeout) 4 2).is_anomaly
        = true ∧
    (VariantA.checkAnomaly envDefault (Remote.fail FailureMode.timeout) 4 2).anomaly_score
        = 667 / 100 ∧
    (checkAnomalyClaimFormula 4 2).is_anomaly = false ∧
    (checkAnomalyClaimFormula 4 2).anomaly_score = 2 ∧
    VariantA.checkAnomaly envDefault (Remote.fail FailureMode.timeout) 4 2
        ≠ checkAnomalyClaimFormula 4 2 := by
  have hA : VariantA.checkAnomaly envDefault (Remote.fail FailureMode.timeout) 4 2 =
      { is_anomaly := true, anomaly_score := 667 / 100, deviation_percent := 100 } := by
    simp only [VariantA.checkAnomaly]
    norm_num [toFixedQ]
  have hS : checkAnomalyClaimFormula 4 2 =
      { is_anomaly := false, anomaly_score := 2, deviation_percent := 100 } := by
    simp only [checkAnomalyClaimFormula]
    norm_num [toFixedQ]
  refine ⟨by rw [hA], by rw [hA], by rw [hS], by rw [hS], by rw [hA, hS]; simp⟩

/-- C3, amended.  For every `currentVolume` and `historicalAverage`, the
checkAnomaly fallback (identical in both variants) computes
`deviation = |currentVolume − historicalAverage|` and
`score = deviation / stdDevProxy` with `isAnomaly = (score > 2.5)` and the
reported score rounded to two decimals — but the proxy is
`historicalAverage × 0.15` whenever that product is nonzero, and `1` only
when it is zero (the JavaScript `|| 1` guard), not
`max(historicalAverage × 0.15, 1)`; the division is still always guarded
(the proxy is never zero). -/
theorem c3_amended (cv ha : ℚ) :
    (if ha * (3 / 20) = 0 then (1 : ℚ) else ha * (3 / 20)) ≠ 0 ∧
    (ha ≠ 0 → (if ha * (3 / 20) = 0 then (1 : ℚ) else ha * (3 / 20)) = ha * (3 / 20)) ∧
    (ha = 0 → (if ha * (3 / 20) = 0 then (1 : ℚ) else ha * (3 / 20)) = 1) ∧
    (∀ env : Env, ∀ f : FailureMode,
      VariantA.checkAnomaly env (Remote.fail f) cv ha =
        { is_anomaly :=
            decide (|cv - ha| / (if ha * (3 / 20) = 0 then (1 : ℚ) else ha * (3 / 20)) > 5 / 2)
          anomaly_score :=
            toFixedQ 2 (|cv - ha| / (if ha * (3 / 20) = 0 then (1 : ℚ) else ha * (3 / 20)))
          deviation_percent :=
            toFixedQ 1 (|cv - ha| / (if ha = 0 then 1 else ha) * 100) } ∧
      VariantB.checkAnomaly env (Remote.fail f) cv ha =
        VariantA.checkAnomaly env (Remote.fail f) cv ha) := by
  have hne : (if ha * (3 / 20) = 0 then (1 : ℚ) else ha * (3 / 20)) ≠ 0 := by
    by_cases h : ha * (3 / 20) = 0 <;> simp [h]
  refine ⟨hne, fun h0 => if_neg ?_, fun h0 => if_pos ?_, fun env f => ⟨rfl, rfl⟩⟩
  · intro hx
    rcases mul_eq_zero.mp hx with h | h
    · exact h0 h
    · norm_num at h
  · simp [h0]

/-- C3 amended, witness at `currentVolume = 4`, `historicalAverage = 2`. -/
theorem c3_amended_witness :
    ((if (2 : ℚ) * (3 / 20) = 0 then (1 : ℚ) else 2 * (3 / 20)) = 2 * (3 / 20)) ∧
    VariantA.checkAnomaly envDefault (Remote.fail FailureMode.timeout) 4 2 =
      { is_anomaly :=
          decide (|(4 : ℚ) - 2| / (if (2 : ℚ) * (3 / 20) = 0 then (1 : ℚ) else 2 * (3 / 20))
            > 5 / 2)
        anomaly_score :=
          toFixedQ 2 (|(4 : ℚ) - 2| / (if (2 : ℚ) * (3 / 20) = 0 then (1 : ℚ) else 2 * (3 / 20)))
        deviation_percent := toFixedQ 1 (|(4 : ℚ) - 2| / (if (2 : ℚ) = 0 then 1 else 2) * 100) } :=
  ⟨(c3_amended 4 2).2.1 (by norm_num),
   ((c3_amended 4 2).2.2.2 envDefault FailureMode.timeout).1⟩

/-- C10.  For every `historicalAverage < 0` and every `currentVolume`, the
checkAnomaly fallback's standard-deviation proxy `historicalAverage × 0.15`
is negative, the computed anomaly score is ≤ 0, and `isAnomaly` is false,
however large the deviation is (both variants). -/
theorem c10_negative_average_never_anomalous (env : Env) (f : FailureMode) (cv ha : ℚ)
    (h : ha < 0) :
    ha * (3 / 20) < 0 ∧
    (VariantA.checkAnomaly env (Remote.fail f) cv ha).anomaly_score ≤ 0 ∧
    (VariantA.checkAnomaly env (Remote.fail f) cv ha).is_anomaly = false ∧
    (VariantB.checkAnomaly env (Remote.fail f) cv ha).anomaly_score ≤ 0 ∧
    (VariantB.checkAnomaly env (Remote.fail f) cv ha).is_anomaly = false := by
  have hprod : ha * (3 / 20) < 0 := by nlinarith
  have hif : (if ha * (3 / 20) = 0 then (1 : ℚ) else ha * (3 / 20)) = ha * (3 / 20) :=
    if_neg (ne_of_lt hprod)
  have hscore : |cv - ha| / (if ha * (3 / 20) = 0 then (1 : ℚ) else ha * (3 / 20)) ≤ 0 := by
    rw [hif]
    exact div_nonpos_of_nonneg_of_nonpos (abs_nonneg _) hprod.le
  have hA : (VariantA.checkAnomaly env (Remote.fail f) cv ha).anomaly_score =
      toFixedQ 2 (|cv - ha| / (if ha * (3 / 20) = 0 then (1 : ℚ) else ha * (3 / 20))) := rfl
  have hAb : (VariantA.checkAnomaly env (Remote.fail f) cv ha).is_anomaly =
      decide (|cv - ha| / (if ha * (3 / 20) = 0 then (1 : ℚ) else ha * (3 / 20)) > 5 / 2) := rfl
  have hBA : VariantB.checkAnomaly env (Remote.fail f) cv ha =
      VariantA.checkAnomaly env (Remote.fail f) cv ha := rfl
  have hsc : (VariantA.checkAnomaly env (Remote.fail f) cv ha).anomaly_score ≤ 0 := by
    rw [hA]; exact toFixedQ_nonpos 2 hscore
  have hbool : (VariantA.checkAnomaly env (Remote.fail f) cv ha).is_anomaly = false := by
    rw [hAb, decide_eq_false_iff_not]
    intro hgt
    linarith
  exact ⟨hprod, hsc, hbool, by rw [hBA]; exact hsc, by rw [hBA]; exact hbool⟩

/-- C10, witness at `currentVolume = 1000000`, `historicalAverage = −1`. -/
theorem c10_negative_average_witness :
    (-1 : ℚ) * (3 / 20) < 0 ∧
    (VariantA.checkAnomaly envDefault (Remote.fail FailureMode.timeout) 1000000
      (-1)).anomaly_score ≤ 0 ∧
    (VariantA.checkAnomaly envDefault (Remote.fail FailureMode.timeout) 1000000
      (-1)).is_anomaly = false ∧
    (VariantB.checkAnomaly envDefault (Remote.fail FailureMode.timeout) 1000000
      (-1)).anomaly_score ≤ 0 ∧
    (VariantB.checkAnomaly envDefault (Remote.fail FailureMode.timeout) 1000000
      (-1)).is_anomaly = false :=
  c10_negative_average_never_anomalous envDefault FailureMode.timeout 1000000 (-1)
    (by norm_num)

/-- C2.  Every operation of both variants of the access layer is a total
function into its documented result type: on a successful remote call it
returns the payload, and on a rejected remote call — whichever of the four
failure modes (timeout, network, non-success status, malformed payload)
caused the rejection — it returns its local fallback value, with the
failure mode never influencing (let alone escaping) the result.
`sendFeedback` surfaces no error and produces no fallback value (`none`).
`generateReport` of variant A additionally absorbs every outcome of its
second (generative) tier. -/
theorem c2_no_failure_escapes (env : Env) (f f' : FailureMode) (season : String)
    (maxCapacity : JsNum) (volumes : List ℚ) (cv ha : ℚ)
    (sat : BackendSatelliteResponse) (fc : ℚ) (av : AnomalyVerdict)
    (rep : AnalysisReport) (gemini : Remote (Option String)) (fb : String)
    (mm : MLMetricsResponse) :
    (VariantA.getSatelliteData env (Remote.ok sat) season maxCapacity = sat ∧
      VariantA.getSatelliteData env (Remote.fail f) season maxCapacity =
        VariantA.getSatelliteData env (Remote.fail f') season maxCapacity) ∧
    (VariantA.getForecast env (Remote.ok fc) volumes = fc ∧
      VariantA.getForecast env (Remote.fail f) volumes =
        VariantA.getForecast env (Remote.fail f') volumes) ∧
    (VariantA.checkAnomaly env (Remote.ok av) cv ha = av ∧
      VariantA.checkAnomaly env (Remote.fail f) cv ha =
        VariantA.checkAnomaly env (Remote.fail f') cv ha) ∧
    (VariantA.generateReport env (Remote.ok rep) gemini = rep ∧
      VariantA.generateReport env (Remote.fail f) gemini =
        VariantA.generateReport env (Remote.fail f') gemini ∧
      VariantA.generateReport env (Remote.fail f) (Remote.fail f') =
        VariantA.staticReport) ∧
    (VariantA.sendFeedback env (Remote.ok fb) = some fb ∧
      VariantA.sendFeedback env (Remote.fail f) = none) ∧
    (VariantA.getMLMetrics env (Remote.ok mm) = mm ∧
      VariantA.getMLMetrics env (Remote.fail f) =
        VariantA.getMLMetrics env (Remote.fail f')) ∧
    (VariantB.getSatelliteData env (Remote.ok sat) season maxCapacity = sat ∧
      VariantB.getSatelliteData env (Remote.fail f) season maxCapacity =
        VariantB.getSatelliteData env (Remote.fail f') season maxCapacity) ∧
    (VariantB.getForecast env (Remote.ok fc) volumes = fc ∧
      VariantB.getForecast env (Remote.fail f) volumes =
        VariantB.getForecast env (Remote.fail f') volumes) ∧
    (VariantB.checkAnomaly env (Remote.ok av) cv ha = av ∧
      VariantB.checkAnomaly env (Remote.fail f) cv ha =
        VariantB.checkAnomaly env (Remote.fail f') cv ha) ∧
    (VariantB.generateReport env (Remote.ok rep) = rep ∧
      VariantB.generateReport env (Remote.fail f) = VariantB.staticReport) ∧
    (VariantB.sendFeedback env (Remote.ok fb) = some fb ∧
      VariantB.sendFeedback env (Remote.fail f) = none) ∧
    (VariantB.getMLMetrics env (Remote.ok mm) = mm ∧
      VariantB.getMLMetrics env (Remote.fail f) =
        VariantB.getMLMetrics env (Remote.fail f')) :=
  ⟨⟨rfl, rfl⟩, ⟨rfl, rfl⟩, ⟨rfl, rfl⟩, ⟨rfl, rfl, rfl⟩, ⟨rfl, rfl⟩, ⟨rfl, rfl⟩,
   ⟨rfl, rfl⟩, ⟨rfl, rfl⟩, ⟨rfl, rfl⟩, ⟨rfl, rfl⟩, ⟨rfl, rfl⟩, ⟨rfl, rfl⟩⟩

/-- A fixed concrete report used to instantiate parse oracles in closed
statements. -/
def reportSample : AnalysisReport :=
  { riskLevel := "Low", summary := "s", recommendation := "r",
    floodProbability := 5, droughtSeverity := "Normal", forecast := "f" }

/-- `envDefault` with a `JSON.parse` oracle that always succeeds with
`reportSample`. -/
def envParseSample : Env :=
  { envDefault with parse := fun _ => some reportSample }

/-- C1, counterexample.  The repository also ships the part_003 revision of
`api.generateReport`, which has no generative tier: when its backend
request fails it returns a static report whose `floodProbability` is `12`,
not the claimed fixed static report with `floodProbability` `0`. -/
theorem c1_counterexample :
    (VariantB.generateReport envDefault (Remote.fail FailureMode.timeout)).floodProbability
        = 12 ∧
    ¬ (VariantB.generateReport envDefault
        (Remote.fail FailureMode.timeout)).floodProbability = 0 := by
  refine ⟨rfl, ?_⟩
  show ¬ (12 : ℚ) = 0
  norm_num

/-- C1, amended.  In the part_002 variant, `generateReport` attempts its
tiers in the fixed order backend → direct generative call → static object,
never letting a failure at one tier propagate past the next, and when both
the backend request and the generative call fail (rejection, absent or
empty response text, or unparseable JSON) it returns exactly the fixed
static report with riskLevel "Moderate", floodProbability 0,
droughtSeverity "Normal" and non-empty summary/recommendation/forecast.
In the part_003 variant there is no generative tier: backend failure falls
directly to a static report with riskLevel "Moderate", floodProbability 12,
droughtSeverity "Normal" and non-empty text fields. -/
theorem c1_amended (env : Env) (f f2 : FailureMode) (r : AnalysisReport)
    (g : Remote (Option String)) (s : String) :
    VariantA.generateReport env (Remote.ok r) g = r ∧
    (s ≠ "" → env.parse (((s.replace "```json" "").replace "```" "").trim) = some r →
      VariantA.generateReport env (Remote.fail f) (Remote.ok (some s)) = r) ∧
    VariantA.generateReport env (Remote.fail f) (Remote.fail f2) = VariantA.staticReport ∧
    VariantA.generateReport env (Remote.fail f) (Remote.ok none) = VariantA.staticReport ∧
    VariantA.generateReport env (Remote.fail f) (Remote.ok (some "")) =
      VariantA.staticReport ∧
    (env.parse (((s.replace "```json" "").replace "```" "").trim) = none →
      VariantA.generateReport env (Remote.fail f) (Remote.ok (some s)) =
        VariantA.staticReport) ∧
    VariantA.staticReport.riskLevel = "Moderate" ∧
    VariantA.staticReport.floodProbability = 0 ∧
    VariantA.staticReport.droughtSeverity = "Normal" ∧
    VariantA.staticReport.summary ≠ "" ∧
    VariantA.staticReport.recommendation ≠ "" ∧
    VariantA.staticReport.forecast ≠ "" ∧
    VariantB.generateReport env (Remote.ok r) = r ∧
    VariantB.generateReport env (Remote.fail f) = VariantB.staticReport ∧
    VariantB.staticReport.riskLevel = "Moderate" ∧
    VariantB.staticReport.floodProbability = 12 ∧
    VariantB.staticReport.droughtSeverity = "Normal" ∧
    VariantB.staticReport.summary ≠ "" ∧
    VariantB.staticReport.recommendation ≠ "" ∧
    VariantB.staticReport.forecast ≠ "" := by
  refine ⟨rfl, ?_, rfl, rfl, ?_, ?_, rfl, rfl, rfl, by decide, by decide, by decide,
    rfl, rfl, rfl, rfl, rfl, by decide, by decide, by decide⟩
  · intro hs hp
    simp only [VariantA.generateReport, if_neg hs, hp]
  · simp [VariantA.generateReport]
  · intro hp
    by_cases hs : s = ""
    · subst hs
      simp [VariantA.generateReport]
    · simp only [VariantA.generateReport, if_neg hs, hp]

/-- C1 amended, witness: both the tier-2 success clause (parse oracle
succeeding on a nonempty response) and the all-tiers-fail clause (parse
oracle throwing) at concrete inputs. -/
theorem c1_amended_witness :
    VariantA.generateReport envParseSample (Remote.fail FailureMode.timeout)
      (Remote.ok (some "x")) = reportSample ∧
    VariantA.generateReport envDefault (Remote.fail FailureMode.timeout)
      (Remote.ok (some "x")) = VariantA.staticReport :=
  ⟨(c1_amended envParseSample FailureMode.timeout FailureMode.network reportSample
      (Remote.fail FailureMode.timeout) "x").2.1 (by decide) rfl,
   (c1_amended envDefault FailureMode.timeout FailureMode.network reportSample
      (Remote.fail FailureMode.timeout) "x").2.2.2.2.2.1 rfl⟩

/-- C8, counterexample.  The part_003 revision of `api.getMLMetrics`
(cited by the claim) answers a failed metrics request with a mapping whose
status fields read "Active" and whose `last_updated` is the current
timestamp — values that present themselves as live, not as non-live. -/
theorem c8_counterexample :
    ((VariantB.getMLMetrics envDefault (Remote.fail FailureMode.timeout)).map
        (fun p => p.2.status)) = ["Active", "Active"] ∧
    ("Active" : String) ≠ "Offline" ∧
    ((VariantB.getMLMetrics envDefault (Remote.fail FailureMode.timeout)).map
        (fun p => p.2.last_updated)) = [some envDefault.now, some envDefault.now] := by
  refine ⟨rfl, by decide, rfl⟩

/-- C8, amended.  Whenever the remote metrics request fails, `getMLMetrics`
returns a fixed non-empty mapping from model name to `ModelMetric`; in the
part_002 variant every status field is "Offline" with a null
`last_updated`, signalling non-live data, while in the part_003 variant
the fallback is a placeholder set whose status fields read "Active", with
fixed numeric accuracies and the call-time timestamp as `last_updated`,
presenting itself as live. -/
theorem c8_amended (env : Env) (f : FailureMode) :
    VariantA.getMLMetrics env (Remote.fail f) ≠ [] ∧
    ((VariantA.getMLMetrics env (Remote.fail f)).map (fun p => p.2.status)) =
      ["Offline", "Offline"] ∧
    ((VariantA.getMLMetrics env (Remote.fail f)).map (fun p => p.2.last_updated)) =
      [none, none] ∧
    ((VariantA.getMLMetrics env (Remote.fail f)).map (fun p => p.1)) =
      ["Random Forest Regressor", "Isolation Forest"] ∧
    VariantB.getMLMetrics env (Remote.fail f) ≠ [] ∧
    ((VariantB.getMLMetrics env (Remote.fail f)).map (fun p => p.2.status)) =
      ["Active", "Active"] ∧
    ((VariantB.getMLMetrics env (Remote.fail f)).map (fun p => p.2.accuracy)) =
      [NumOrStr.num (197 / 200), NumOrStr.num (471 / 500)] ∧
    ((VariantB.getMLMetrics env (Remote.fail f)).map (fun p => p.2.last_updated)) =
      [some env.now, some env.now] := by
  refine ⟨?_, rfl, rfl, rfl, ?_, rfl, rfl, rfl⟩ <;> simp [VariantA.getMLMetrics,
    VariantB.getMLMetrics]

/-- `envDefault` at a first call time. -/
def envNowX : Env := { envDefault with now := "2026-01-01T00:00:00.000Z" }

/-- `envDefault` at a later call time. -/
def envNowY : Env := { envDefault with now := "2026-01-01T00:00:01.000Z" }

/-- C9, counterexample.  Two forced-fallback calls of the part_003
revision of `getMLMetrics` (cited by the claim) with identical inputs but
made at different times return different results: the fallback embeds
`new Date().toISOString()` in every `last_updated` field. -/
theorem c9_counterexample :
    VariantB.getMLMetrics envNowX (Remote.fail FailureMode.timeout) ≠
      VariantB.getMLMetrics envNowY (Remote.fail FailureMode.timeout) := by
  intro h
  have := congrArg (fun m => m.map (fun p => p.2.last_updated)) h
  simp [VariantB.getMLMetrics, envNowX, envNowY, envDefault] at this

/-- C9, amended.  Under forced fallback and identical inputs, the results
of `getForecast`, `checkAnomaly`, the static tier of `generateReport`, and
the part_002 variant of `getMLMetrics` are independent of the ambient
environment (random draws, clock, parse and pow oracles) and of the
failure mode, hence identical across calls; the part_003 variant of
`getMLMetrics` is excluded because its fallback embeds the call-time
timestamp.  For the satellite fallback, the fill fractions of two calls
with the same season differ by at most 0.1, the width of the documented
random-noise interval [−0.05, +0.05]. -/
theorem c9_amended (env env' : Env) (f f' : FailureMode) (l : List ℚ) (cv ha : ℚ)
    (season : String) :
    VariantA.getForecast env (Remote.fail f) l =
      VariantA.getForecast env' (Remote.fail f') l ∧
    VariantB.getForecast env (Remote.fail f) l =
      VariantB.getForecast env' (Remote.fail f') l ∧
    VariantA.checkAnomaly env (Remote.fail f) cv ha =
      VariantA.checkAnomaly env' (Remote.fail f') cv ha ∧
    VariantB.checkAnomaly env (Remote.fail f) cv ha =
      VariantB.checkAnomaly env' (Remote.fail f') cv ha ∧
    VariantA.generateReport env (Remote.fail f) (Remote.fail f') =
      VariantA.generateReport env' (Remote.fail f') (Remote.fail f) ∧
    VariantB.generateReport env (Remote.fail f) =
      VariantB.generateReport env' (Remote.fail f') ∧
    VariantA.getMLMetrics env (Remote.fail f) =
      VariantA.getMLMetrics env' (Remote.fail f') ∧
    (0 ≤ env.rand1 → env.rand1 ≤ 1 → 0 ≤ env'.rand1 → env'.rand1 ≤ 1 →
      |fillPctSim env season - fillPctSim env' season| ≤ 1 / 10) := by
  refine ⟨rfl, rfl, rfl, rfl, rfl, rfl, rfl, ?_⟩
  intro h1 h2 h3 h4
  have hd := fillPctSim_dist env env' season
  have habs : |env.rand1 - env'.rand1| ≤ 1 := by
    rw [abs_le]
    constructor <;> linarith
  calc |fillPctSim env season - fillPctSim env' season| ≤ |env.rand1 - env'.rand1| / 10 := hd
    _ ≤ 1 / 10 := by linarith

/-- C9 amended, witness: two calls at different clock times, equal forecast
fallbacks and fill fractions within the noise bound. -/
theorem c9_amended_witness :
    VariantA.getForecast envNowX (Remote.fail FailureMode.timeout) [10, 20, 30] =
      VariantA.getForecast envNowY (Remote.fail FailureMode.network) [10, 20, 30] ∧
    |fillPctSim envNowX "Winter" - fillPctSim envNowY "Winter"| ≤ 1 / 10 :=
  ⟨(c9_amended envNowX envNowY FailureMode.timeout FailureMode.network [10, 20, 30] 0 0
      "Winter").1,
   (c9_amended envNowX envNowY FailureMode.timeout FailureMode.network [10, 20, 30] 0 0
      "Winter").2.2.2.2.2.2.2 (by norm_num [envNowX, envDefault])
      (by norm_num [envNowX, envDefault]) (by norm_num [envNowY, envDefault])
      (by norm_num [envNowY, envDefault])⟩

/-- C6, counterexample.  On the series `[1, 1, 2]` the part_002 forecast
fallback returns `1.3` — the mean `4/3` rounded to one decimal by
`Number(avg.toFixed(1))` — not the arithmetic mean itself. -/
theorem c6_counterexample :
    VariantA.getForecast envDefault (Remote.fail FailureMode.timeout) [1, 1, 2] = 13 / 10 ∧
    ([1, 1, 2] : List ℚ).sum / 3 = 4 / 3 ∧
    (13 / 10 : ℚ) ≠ 4 / 3 := by
  refine ⟨?_, by norm_num, by norm_num⟩
  show toFixedQ 1 ((([1, 1, 2] : List ℚ).drop 0).sum /
    (((([1, 1, 2] : List ℚ).drop 0).length : ℕ) : ℚ)) = 13 / 10
  norm_num [toFixedQ]

/-- C6, amended.  The forecast fallback returns exactly `0` on the empty
series; otherwise it returns the arithmetic mean of the last 3 elements
(of all elements when the series is shorter than 3) — multiplied by the
fixed trend adjustment 1.02 in the part_003 variant and unadjusted in the
part_002 variant — rounded half-up to one decimal digit.  The fallback
consults no randomness, so its value is fully determined by the input. -/
theorem c6_amended (env : Env) (f : FailureMode) :
    (VariantA.getForecast env (Remote.fail f) [] = 0 ∧
      VariantB.getForecast env (Remote.fail f) [] = 0) ∧
    (∀ xs ys : List ℚ, ys.length = 3 →
      VariantA.getForecast env (Remote.fail f) (xs ++ ys) = toFixedQ 1 (ys.sum / 3) ∧
      VariantB.getForecast env (Remote.fail f) (xs ++ ys) =
        toFixedQ 1 (ys.sum / 3 * (51 / 50))) ∧
    (∀ l : List ℚ, l ≠ [] → l.length ≤ 3 →
      VariantA.getForecast env (Remote.fail f) l = toFixedQ 1 (l.sum / (l.length : ℚ)) ∧
      VariantB.getForecast env (Remote.fail f) l =
        toFixedQ 1 (l.sum / (l.length : ℚ) * (51 / 50))) := by
  refine ⟨⟨rfl, rfl⟩, ?_, ?_⟩
  · intro xs ys hy
    have hne : ¬ ((xs ++ ys).length = 0) := by
      simp [hy]
    have hdrop : (xs ++ ys).drop ((xs ++ ys).length - 3) = ys := by
      have : (xs ++ ys).length - 3 = xs.length := by
        simp [hy]
      rw [this]
      exact List.drop_left xs ys
    constructor <;>
      simp only [VariantA.getForecast, VariantB.getForecast, if_neg hne, hdrop, hy,
        Nat.cast_ofNat]
  · intro l hl hlen
    have hne : ¬ (l.length = 0) := by
      simpa [List.length_eq_zero] using hl
    have h0 : l.length - 3 = 0 := by omega
    constructor <;>
      simp only [VariantA.getForecast, VariantB.getForecast, if_neg hne, h0, List.drop_zero]

/-- C6 amended, witness: last-three window on a five-element series and the
short-series case. -/
theorem c6_amended_witness :
    VariantA.getForecast envDefault (Remote.fail FailureMode.timeout) ([5, 10] ++ [20, 30, 40])
      = toFixedQ 1 (([20, 30, 40] : List ℚ).sum / 3) ∧
    VariantB.getForecast envDefault (Remote.fail FailureMode.timeout) ([7] : List ℚ)
      = toFixedQ 1 (([7] : List ℚ).sum / (([7] : List ℚ).length : ℚ) * (51 / 50)) :=
  ⟨((c6_amended envDefault FailureMode.timeout).2.1 [5, 10] [20, 30, 40] rfl).1,
   ((c6_amended envDefault FailureMode.timeout).2.2 [7] (by simp) (by simp)).2⟩

/-- C4, counterexample.  With `maxCapacity = 0` the fallback satellite
reading's water level is `10 + (0 / 0) * 20`, i.e. `NaN`, which
`toFixed(1)` and `Number(·)` hand back unchanged — so a `NaN` reaches the
caller. -/
theorem c4_counterexample :
    (simulateGEE envDefault "Winter" (JsNum.num 0)).water_level_m = JsNum.nan := by
  have hfill : fillPctSim envDefault "Winter" = 11 / 20 := by
    norm_num [fillPctSim, baseFillMap, envDefault]
  simp only [simulateGEE, hfill]
  norm_num [JsNum.jmul, JsNum.jdiv, JsNum.jadd, jToFixed]

/-- `envDefault` with a `Math.pow` oracle constantly one (consulted only
through the hypotheses of the statements using it). -/
def envPowOne : Env := { envDefault with pow := fun _ _ => JsNum.num 1 }

/-- C4, amended.  For every finite `maxCapacity > 0` (and a `Math.pow`
result that is finite, as it is for every finite positive base), every
numeric field of the fallback satellite reading is a finite number — no
`NaN` or infinity — and the fill percentage lies within [0, 100]. -/
theorem c4_amended (env : Env) (season : String) (M p : ℚ) (hM : 0 < M)
    (hpow : env.pow (JsNum.num (M * fillPctSim env season))
      (JsNum.num (33 / 50)) = JsNum.num p) :
    (simulateGEE env season (JsNum.num M)).surface_area_sqkm =
      JsNum.num (toFixedQ 2 (p * (6 / 5))) ∧
    (simulateGEE env season (JsNum.num M)).volume_mcm =
      JsNum.num (toFixedQ 1 (M * fillPctSim env season)) ∧
    (simulateGEE env season (JsNum.num M)).water_level_m =
      JsNum.num (toFixedQ 1 (10 + fillPctSim env season * 20)) ∧
    (simulateGEE env season (JsNum.num M)).fill_percentage =
      JsNum.num (toFixedQ 1 (fillPctSim env season * 100)) ∧
    0 ≤ toFixedQ 1 (fillPctSim env season * 100) ∧
    toFixedQ 1 (fillPctSim env season * 100) ≤ 100 ∧
    (simulateGEE env season (JsNum.num M)).cloud_cover_pct =
      JsNum.num (toFixedQ 1 (env.rand2 * 30)) ∧
    (simulateGEE env season (JsNum.num M)).rainfall_mm =
      JsNum.num (if season = "Monsoon" then 800 else 100) := by
  have hMne : M ≠ 0 := ne_of_gt hM
  have hlb := fillPctSim_lb env season
  have hub := fillPctSim_ub env season
  have hj1 : JsNum.jmul (JsNum.num M) (JsNum.num (fillPctSim env season)) =
      JsNum.num (M * fillPctSim env season) := rfl
  have hdiv : JsNum.jdiv (JsNum.num (M * fillPctSim env season)) (JsNum.num M) =
      JsNum.num (fillPctSim env season) := by
    simp only [JsNum.jdiv, if_neg hMne]
    congr 1
    field_simp
  refine ⟨?_, rfl, ?_, rfl, ?_, ?_, rfl, rfl⟩
  · show jToFixed 2 (JsNum.jmul (env.pow (JsNum.jmul (JsNum.num M)
      (JsNum.num (fillPctSim env season))) (JsNum.num (33 / 50))) (JsNum.num (6 / 5))) =
      JsNum.num (toFixedQ 2 (p * (6 / 5)))
    rw [hj1, hpow]
    rfl
  · show jToFixed 1 (JsNum.jadd (JsNum.num 10)
      (JsNum.jmul (JsNum.jdiv (JsNum.jmul (JsNum.num M)
        (JsNum.num (fillPctSim env season))) (JsNum.num M)) (JsNum.num 20))) =
      JsNum.num (toFixedQ 1 (10 + fillPctSim env season * 20))
    rw [hj1, hdiv]
    rfl
  · exact toFixedQ_nonneg 1 (by nlinarith)
  · have h1 : fillPctSim env season * 100 ≤ 98 := by nlinarith
    have h2 := toFixedQ_le 1 (fillPctSim env season * 100)
    have h3 : (1 : ℚ) / (2 * 10 ^ 1) = 1 / 20 := by norm_num
    rw [h3] at h2
    linarith

/-- C4 amended, witness at `maxCapacity = 1`, season Winter, a pow oracle
returning 1. -/
theorem c4_amended_witness :
    (simulateGEE envPowOne "Winter" (JsNum.num 1)).water_level_m =
      JsNum.num (toFixedQ 1 (10 + fillPctSim envPowOne "Winter" * 20)) ∧
    0 ≤ toFixedQ 1 (fillPctSim envPowOne "Winter" * 100) ∧
    toFixedQ 1 (fillPctSim envPowOne "Winter" * 100) ≤ 100 :=
  ⟨(c4_amended envPowOne "Winter" 1 1 (by norm_num) rfl).2.2.1,
   (c4_amended envPowOne "Winter" 1 1 (by norm_num) rfl).2.2.2.2.1,
   (c4_amended envPowOne "Winter" 1 1 (by norm_num) rfl).2.2.2.2.2.1⟩

/-- `envDefault` with the first `Math.random()` draw at 1/2, i.e. noise
exactly 0 (inside the documented interval [−0.05, +0.05]). -/
def envRandHalf : Env := { envDefault with rand1 := 1 / 2 }

/-- C5, counterexample.  Season Summer, `maxCapacity = 0.1 > 0`, noise 0:
the internal volume is `0.1 × 0.35 = 0.035`, and `Number(volume.toFixed(1))`
rounds it to `0`, so the reading's `volume_mcm` is not in
`(0, maxCapacity]`. -/
theorem c5_counterexample :
    (simulateGEE envRandHalf "Summer" (JsNum.num (1 / 10))).volume_mcm = JsNum.num 0 ∧
    ¬ (∃ q : ℚ, (simulateGEE envRandHalf "Summer" (JsNum.num (1 / 10))).volume_mcm =
        JsNum.num q ∧ 0 < q ∧ q ≤ 1 / 10) := by
  have hfill : fillPctSim envRandHalf "Summer" = 7 / 20 := by
    norm_num [fillPctSim, baseFillMap, envRandHalf, envDefault]
  have hv : (simulateGEE envRandHalf "Summer" (JsNum.num (1 / 10))).volume_mcm =
      JsNum.num 0 := by
    simp only [simulateGEE, hfill]
    show jToFixed 1 (JsNum.jmul (JsNum.num (1 / 10)) (JsNum.num (7 / 20))) = JsNum.num 0
    norm_num [JsNum.jmul, jToFixed, toFixedQ]
  refine ⟨hv, ?_⟩
  rintro ⟨q, hq, hpos, _⟩
  rw [hv] at hq
  injection hq with h
  rw [← h] at hpos
  exact lt_irrefl 0 hpos

/-- C5, amended.  For every season, every finite `maxCapacity > 0` and
every noise value (the clamp makes the bounds independent of the draw),
the fallback reading's `fill_percentage` lies in [10, 98] and the internal
volume `maxCapacity × fillPct` lies in `(0, maxCapacity]`; the reported
`volume_mcm` is that volume rounded half-up to one decimal, hence only
within `[0, maxCapacity + 0.05]`. -/
theorem c5_amended (env : Env) (season : String) (M : ℚ) (hM : 0 < M) :
    (simulateGEE env season (JsNum.num M)).fill_percentage =
      JsNum.num (toFixedQ 1 (fillPctSim env season * 100)) ∧
    10 ≤ toFixedQ 1 (fillPctSim env season * 100) ∧
    toFixedQ 1 (fillPctSim env season * 100) ≤ 98 ∧
    0 < M * fillPctSim env season ∧
    M * fillPctSim env season ≤ M ∧
    (simulateGEE env season (JsNum.num M)).volume_mcm =
      JsNum.num (toFixedQ 1 (M * fillPctSim env season)) ∧
    0 ≤ toFixedQ 1 (M * fillPctSim env season) ∧
    toFixedQ 1 (M * fillPctSim env season) ≤ M + 1 / 20 := by
  have hlb := fillPctSim_lb env season
  have hub := fillPctSim_ub env season
  have h10 : toFixedQ 1 (10 : ℚ) = 10 := by norm_num [toFixedQ]
  have h98 : toFixedQ 1 (98 : ℚ) = 98 := by norm_num [toFixedQ]
  refine ⟨rfl, ?_, ?_, ?_, ?_, rfl, ?_, ?_⟩
  · rw [← h10]
    exact toFixedQ_mono 1 (by nlinarith)
  · rw [← h98]
    exact toFixedQ_mono 1 (by nlinarith)
  · nlinarith
  · nlinarith
  · exact toFixedQ_nonneg 1 (by nlinarith)
  · have h2 := toFixedQ_le 1 (M * fillPctSim env season)
    have h3 : (1 : ℚ) / (2 * 10 ^ 1) = 1 / 20 := by norm_num
    rw [h3] at h2
    nlinarith

/-- C5 amended, witness at `maxCapacity = 1`, season Winter. -/
theorem c5_amended_witness :
    10 ≤ toFixedQ 1 (fillPctSim envDefault "Winter" * 100) ∧
    toFixedQ 1 (fillPctSim envDefault "Winter" * 100) ≤ 98 ∧
    0 < 1 * fillPctSim envDefault "Winter" ∧
    toFixedQ 1 (1 * fillPctSim envDefault "Winter") ≤ 1 + 1 / 20 :=
  ⟨(c5_amended envDefault "Winter" 1 (by norm_num)).2.1,
   (c5_amended envDefault "Winter" 1 (by norm_num)).2.2.1,
   (c5_amended envDefault "Winter" 1 (by norm_num)).2.2.2.1,
   (c5_amended envDefault "Winter" 1 (by norm_num)).2.2.2.2.2.2.2⟩

/-- A concrete stand-in for the `Math.pow(·, 0.66)` oracle at the two base
values reached in the C7 counterexample: `Math.pow(0, 0.66) = 0` exactly
(IEEE pow of +0 with a positive exponent), and
`Math.pow(0.035, 0.66) = 0.109417...`, recorded to six decimals. -/
def powApproxSmall : JsNum → JsNum → JsNum := fun b _ =>
  if b = JsNum.num 0 then JsNum.num 0
  else if b = JsNum.num (7 / 200) then JsNum.num (109417 / 1000000)
  else JsNum.nan

/-- `envRandHalf` with the small-base pow oracle. -/
def envPowSmall : Env := { envRandHalf with pow := powApproxSmall }

/-- C7, counterexample.  Season Summer, `maxCapacity = 0.1 > 0`, noise 0:
the reading's surface area is `0.13` (computed from the internal volume
`0.035` before rounding), while its returned volume is `0`, whose
`pow(·, 0.66) × 1.2` is `0` — a discrepancy of `0.13`, far beyond any
floating-point tolerance (well beyond `0.1`). -/
theorem c7_counterexample :
    (simulateGEE envPowSmall "Summer" (JsNum.num (1 / 10))).volume_mcm = JsNum.num 0 ∧
    (simulateGEE envPowSmall "Summer" (JsNum.num (1 / 10))).surface_area_sqkm =
      JsNum.num (13 / 100) ∧
    JsNum.jmul (envPowSmall.pow
      ((simulateGEE envPowSmall "Summer" (JsNum.num (1 / 10))).volume_mcm)
      (JsNum.num (33 / 50))) (JsNum.num (6 / 5)) = JsNum.num 0 ∧
    ¬ (|(13 : ℚ) / 100 - 0| ≤ 1 / 10) := by
  have hfill : fillPctSim envPowSmall "Summer" = 7 / 20 := by
    norm_num [fillPctSim, baseFillMap, envPowSmall, envRandHalf, envDefault]
  have hvol : JsNum.jmul (JsNum.num (1 / 10)) (JsNum.num (fillPctSim envPowSmall "Summer")) =
      JsNum.num (7 / 200) := by
    rw [hfill]
    show JsNum.num (1 / 10 * (7 / 20)) = JsNum.num (7 / 200)
    norm_num
  have hpow : envPowSmall.pow (JsNum.num (7 / 200)) (JsNum.num (33 / 50)) =
      JsNum.num (109417 / 1000000) := by
    show powApproxSmall (JsNum.num (7 / 200)) (JsNum.num (33 / 50)) =
      JsNum.num (109417 / 1000000)
    rw [powApproxSmall]
    norm_num
  have hv : (simulateGEE envPowSmall "Summer" (JsNum.num (1 / 10))).volume_mcm =
      JsNum.num 0 := by
    simp only [simulateGEE, hvol]
    show JsNum.num (toFixedQ 1 (7 / 200)) = JsNum.num 0
    norm_num [toFixedQ]
  have hs : (simulateGEE envPowSmall "Summer" (JsNum.num (1 / 10))).surface_area_sqkm =
      JsNum.num (13 / 100) := by
    simp only [simulateGEE, hvol, hpow]
    show JsNum.num (toFixedQ 2 (109417 / 1000000 * (6 / 5))) = JsNum.num (13 / 100)
    norm_num [toFixedQ]
  have habs : ¬ (|(13 : ℚ) / 100 - 0| ≤ 1 / 10) := by
    rw [sub_zero, abs_of_nonneg (by norm_num : (0 : ℚ) ≤ 13 / 100)]
    norm_num
  refine ⟨hv, hs, ?_, habs⟩
  rw [hv]
  show JsNum.jmul (powApproxSmall (JsNum.num 0) (JsNum.num (33 / 50))) (JsNum.num (6 / 5)) =
    JsNum.num 0
  rw [powApproxSmall]
  norm_num
  show JsNum.num (0 * (6 / 5)) = JsNum.num 0
  norm_num

/-- C7, amended.  For every season, every finite `maxCapacity` and every
finite value `p` of `Math.pow(volume, 0.66)` at the internal (pre-rounding)
volume, the reading's surface area is exactly `p × 1.2` rounded half-up to
two decimals, hence within `0.005` of `volume^0.66 × 1.2` — the scaling is
applied to the internal volume, not to the returned (rounded)
`volume_mcm`. -/
theorem c7_amended (env : Env) (season : String) (M p : ℚ)
    (hpow : env.pow (JsNum.num (M * fillPctSim env season)) (JsNum.num (33 / 50)) =
      JsNum.num p) :
    (simulateGEE env season (JsNum.num M)).surface_area_sqkm =
      JsNum.num (toFixedQ 2 (p * (6 / 5))) ∧
    |toFixedQ 2 (p * (6 / 5)) - p * (6 / 5)| ≤ 1 / 200 := by
  have hj1 : JsNum.jmul (JsNum.num M) (JsNum.num (fillPctSim env season)) =
      JsNum.num (M * fillPctSim env season) := rfl
  constructor
  · show jToFixed 2 (JsNum.jmul (env.pow (JsNum.jmul (JsNum.num M)
      (JsNum.num (fillPctSim env season))) (JsNum.num (33 / 50))) (JsNum.num (6 / 5))) =
      JsNum.num (toFixedQ 2 (p * (6 / 5)))
    rw [hj1, hpow]
    rfl
  · have h := abs_toFixedQ_sub 2 (p * (6 / 5))
    have h3 : (1 : ℚ) / (2 * 10 ^ 2) = 1 / 200 := by norm_num
    rwa [h3] at h

/-- C7 amended, witness with the constant-one pow oracle at
`maxCapacity = 1`, season Winter. -/
theorem c7_amended_witness :
    (simulateGEE envPowOne "Winter" (JsNum.num 1)).surface_area_sqkm =
      JsNum.num (toFixedQ 2 (1 * (6 / 5))) ∧
    |toFixedQ 2 ((1 : ℚ) * (6 / 5)) - 1 * (6 / 5)| ≤ 1 / 200 :=
  c7_amended envPowOne "Winter" 1 1 rfl
